import Mathlib

/-!
Shallow embedding of the Senzor web analytics agent (`src/index.ts`).

Modelling conventions:
* `Date.now()` timestamps are natural numbers (epoch milliseconds), supplied
  explicitly to each operation that reads the clock.
* `generateUUID()` produces a random identifier; randomness is modelled by a
  fresh-name counter carried in the agent state: the n-th generated UUID is
  the number `n`.  Stored visitor/session IDs are `Option Nat` (`none` when
  the storage key is absent).  The JS sentinel string `'unknown'` returned by
  `getIds` for an absent key is the constructor `Ident.unknown`.
* `localStorage` / `sessionStorage` are the fields of `Store`
  (`vid` / `lastActivity` durable, `sid` / `ref` ephemeral); `getItem`
  returning `null` is `none`.
* `new URL(raw)` is a browser API: the page environment carries
  `referrerHost`, the hostname the URL constructor yields for the document
  referrer (`none` when the constructor throws).
-/

namespace Senzor

/-- Navigation context read from `window` / `document` at call time. -/
structure Page where
  referrer : String
  referrerHost : Option String
  host : String
  url : String
  path : String
  title : String
  width : Nat
  timezone : String
deriving DecidableEq, Repr

/-- The browser storage visible to the agent: durable keys `senzor_vid`,
`senzor_last_activity`; session-scoped keys `senzor_sid`, `senzor_ref`. -/
structure Store where
  vid : Option Nat
  lastActivity : Option Nat
  sid : Option Nat
  ref : Option String
deriving DecidableEq, Repr

/-- Instance state of `SenzorWebAgent` (its private fields) together with
the storage it manipulates and the fresh-UUID counter. -/
structure AgentState where
  store : Store
  fresh : Nat
  initialized : Bool
  listeners : Bool
  startTime : Nat
  webId : String
  configEndpoint : Option String
  endpoint : String
deriving DecidableEq, Repr

/-- Identifier as returned by `getIds`: a generated UUID or the JS string
sentinel `'unknown'` used when the storage key is absent. -/
inductive Ident where
  | uuid (n : Nat)
  | unknown
deriving DecidableEq, Repr

def defaultEndpoint : String := "https://api.senzor.dev/api/ingest/web"

/-- `30 * 60 * 1000` ms, from `manageSession`. -/
def sessionTimeout : Int := 30 * 60 * 1000

/-- JS falsiness of a `string | null` value (`null` and `''` are falsy). -/
def jsFalsy : Option String → Bool
  | none => true
  | some s => s = ""

/-- `normalizeUrl`: `url.replace(/^https?:\/\//, '')` (with `!url` guard).
The anchored regex strips one leading `https://` or `http://`; the check is
done on the character list so that it evaluates by kernel reduction. -/
def normalizeUrl (url : String) : String :=
  if url = "" then ""
  else if url.data.take 8 = "https://".data then String.mk (url.data.drop 8)
  else if url.data.take 7 = "http://".data then String.mk (url.data.drop 7)
  else url

/-- The `isExternal` computation of `determineReferrer`: an empty referrer is
never external; a referrer whose URL constructor throws is external; otherwise
external iff the parsed hostname differs from `window.location.hostname`. -/
def referrerExternal (page : Page) : Bool :=
  if page.referrer = "" then false
  else
    match page.referrerHost with
    | none => true
    | some h => h ≠ page.host

/-- `determineReferrer(isNewSession)`.  The boolean result records whether a
`sessionStorage.setItem('senzor_ref', _)` write was performed. -/
def determineReferrer (s : AgentState) (page : Page) (isNewSession : Bool) :
    AgentState × Bool :=
  let storedReferrer := s.store.ref
  if referrerExternal page then
    let cleanRef := normalizeUrl page.referrer
    if some cleanRef ≠ storedReferrer then
      ({ s with store := { s.store with ref := some cleanRef } }, true)
    else (s, false)
  else if isNewSession && jsFalsy storedReferrer then
    ({ s with store := { s.store with ref := some "Direct" } }, true)
  else (s, false)

/-- `expired` test of `manageSession`: `now - lastActivity > sessionTimeout`
(the stored value is read with `parseInt(... || '0', 10)`). -/
def expired (now lastActivity : Nat) : Bool :=
  (now : Int) - (lastActivity : Int) > sessionTimeout

/-- `manageSession()`: ensure a visitor ID, rotate the session ID when absent
or expired (running referrer attribution with the matching new-session flag),
then write `lastActivity := now`. -/
def manageSession (s : AgentState) (now : Nat) (page : Page) : AgentState :=
  let lastActivity := s.store.lastActivity.getD 0
  let s1 :=
    if s.store.vid.isNone then
      { s with store := { s.store with vid := some s.fresh }, fresh := s.fresh + 1 }
    else s
  let s2 :=
    if s1.store.sid.isNone || expired now lastActivity then
      let sNew :=
        { s1 with store := { s1.store with sid := some s1.fresh }, fresh := s1.fresh + 1 }
      (determineReferrer sNew page true).1
    else (determineReferrer s1 page false).1
  { s2 with store := { s2.store with lastActivity := some now } }

/-- The identity triple `getIds` returns. -/
structure Ids where
  visitorId : Ident
  sessionId : Ident
  referrer : String
deriving DecidableEq, Repr

/-- `getIds()`: writes `lastActivity := now`, then reads the identity triple,
substituting `'unknown'` for absent IDs and `'Direct'` for a falsy stored
referrer. -/
def getIds (s : AgentState) (now : Nat) : AgentState × Ids :=
  let s1 := { s with store := { s.store with lastActivity := some now } }
  (s1,
    { visitorId := match s1.store.vid with | some v => .uuid v | none => .unknown
      sessionId := match s1.store.sid with | some v => .uuid v | none => .unknown
      referrer :=
        match s1.store.ref with
        | some r => if r = "" then "Direct" else r
        | none => "Direct" })

inductive EvType where
  | pageview
  | ping
deriving DecidableEq, Repr

/-- An event payload handed to `send`. -/
structure Payload where
  type : EvType
  webId : String
  visitorId : Ident
  sessionId : Ident
  url : String
  path : String
  title : String
  referrer : String
  width : Nat
  timezone : String
  duration : Option Int
deriving DecidableEq, Repr

/-- `trackPageView()`: re-validate the session, reset `startTime`, then build
and send one pageview payload (`getIds` is called twice in the object
literal: once by the spread, once for the `referrer` field). -/
def trackPageView (s : AgentState) (now : Nat) (page : Page) :
    AgentState × List Payload :=
  let s1 := manageSession s now page
  let s2 := { s1 with startTime := now }
  let r3 := getIds s2 now
  let r4 := getIds r3.1 now
  (r4.1,
    [{ type := .pageview, webId := s.webId, visitorId := r3.2.visitorId,
       sessionId := r3.2.sessionId, url := page.url, path := page.path,
       title := page.title, referrer := r4.2.referrer, width := page.width,
       timezone := page.timezone, duration := none }])

/-- `trackPing()`: `duration = Math.floor((now - startTime) / 1000)`;
suppressed when `duration < 1`, otherwise one ping payload (again two
`getIds` calls). -/
def trackPing (s : AgentState) (now : Nat) (page : Page) :
    AgentState × List Payload :=
  let duration := Int.fdiv ((now : Int) - (s.startTime : Int)) 1000
  if duration < 1 then (s, [])
  else
    let r1 := getIds s now
    let r2 := getIds r1.1 now
    (r2.1,
      [{ type := .ping, webId := s.webId, visitorId := r1.2.visitorId,
         sessionId := r1.2.sessionId, url := page.url, path := page.path,
         title := page.title, referrer := r2.2.referrer, width := page.width,
         timezone := page.timezone, duration := some duration }])

/-- The argument of `init` (`endpoint` is optional). -/
structure Config where
  webId : String
  endpoint : Option String
deriving DecidableEq, Repr

/-- The `SenzorWebAgent` constructor, over whatever `store` and fresh-counter
the browser already holds. -/
def initialState (store : Store) (fresh : Nat) (now : Nat) : AgentState :=
  { store := store, fresh := fresh, initialized := false, listeners := false,
    startTime := now, webId := "",
    configEndpoint := some defaultEndpoint, endpoint := "" }

/-- `init(config)`: guarded by `initialized` (set before anything else, in
particular before the `webId` validation); merges the config, resolves the
endpoint with the `|| default` fallback, validates `webId`, then runs
`manageSession`, `trackPageView` and `setupListeners`. -/
def init (s : AgentState) (cfg : Config) (now : Nat) (page : Page) :
    AgentState × List Payload :=
  if s.initialized then (s, [])
  else
    let mergedEndpoint :=
      match cfg.endpoint with
      | some e => some e
      | none => s.configEndpoint
    let s1 :=
      { s with
        initialized := true
        webId := cfg.webId
        configEndpoint := mergedEndpoint
        endpoint :=
          match mergedEndpoint with
          | some e => if e = "" then defaultEndpoint else e
          | none => defaultEndpoint }
    if s1.webId = "" then (s1, [])
    else
      let s2 := manageSession s1 now page
      let r := trackPageView s2 now page
      ({ r.1 with listeners := true }, r.2)

/-- The patched `history.pushState`: ping for the outgoing page, perform the
navigation, pageview for the new page. -/
def onPushState (s : AgentState) (now : Nat) (pOld pNew : Page) :
    AgentState × List Payload :=
  let r1 := trackPing s now pOld
  let r2 := trackPageView r1.1 now pNew
  (r2.1, r1.2 ++ r2.2)

/-- The `popstate` listener: ping then pageview (the location has already
changed when the handler runs, so both read the new page). -/
def onPopstate (s : AgentState) (now : Nat) (page : Page) :
    AgentState × List Payload :=
  let r1 := trackPing s now page
  let r2 := trackPageView r1.1 now page
  (r2.1, r1.2 ++ r2.2)

/-- `visibilitychange` with `visibilityState === 'hidden'`. -/
def onHidden (s : AgentState) (now : Nat) (page : Page) :
    AgentState × List Payload :=
  trackPing s now page

/-- `visibilitychange` back to visible: reset `startTime`, re-validate the
session; no event is sent. -/
def onVisible (s : AgentState) (now : Nat) (page : Page) :
    AgentState × List Payload :=
  (manageSession { s with startTime := now } now page, [])

/-- `beforeunload`. -/
def onUnload (s : AgentState) (now : Nat) (page : Page) :
    AgentState × List Payload :=
  trackPing s now page

/-- One listener-driven occurrence, with its `Date.now()` timestamp. -/
inductive Op where
  | pushNav (now : Nat) (pOld pNew : Page)
  | popNav (now : Nat) (page : Page)
  | hide (now : Nat) (page : Page)
  | tabShown (now : Nat) (page : Page)
  | unload (now : Nat) (page : Page)
deriving DecidableEq, Repr

def step (s : AgentState) : Op → AgentState × List Payload
  | .pushNav now a b => onPushState s now a b
  | .popNav now p => onPopstate s now p
  | .hide now p => onHidden s now p
  | .tabShown now p => onVisible s now p
  | .unload now p => onUnload s now p

/-- Run a sequence of listener-driven occurrences, collecting the payloads
they send, in order. -/
def run (s : AgentState) : List Op → AgentState × List Payload
  | [] => (s, [])
  | op :: ops =>
    let r1 := step s op
    let r2 := run r1.1 ops
    (r2.1, r1.2 ++ r2.2)

/-! ## Transport (`send` / `fallbackSend`) -/

/-- Delivery environment: whether `navigator.sendBeacon` exists and, when it
does, whether the call returns `true` (queued) or `false` (immediate
failure, e.g. payload-size rejection). -/
structure TransportEnv where
  hasSendBeacon : Bool
  beaconOk : Bool
deriving DecidableEq, Repr

/-- A delivery attempt `send` may make. -/
inductive Attempt where
  | beacon
  | fetchPost
deriving DecidableEq, Repr

/-- `send(data)`: try `navigator.sendBeacon` when present; on absence or
immediate `false` result, make the single `fallbackSend` fetch attempt. -/
def send (env : TransportEnv) : List Attempt :=
  if env.hasSendBeacon then
    if env.beaconOk then [.beacon] else [.beacon, .fetchPost]
  else [.fetchPost]

/-- Shape of the `fetch` request `fallbackSend` issues. -/
structure FetchRequest where
  method : String
  keepalive : Bool
  contentType : String
deriving DecidableEq, Repr

/-- The request `fallbackSend` builds: `POST`, JSON content type,
`keepalive: true`. -/
def fallbackRequest : FetchRequest :=
  { method := "POST", keepalive := true, contentType := "application/json" }

/-- The `.catch(err => console.error(...))` attached to the fallback fetch:
a rejected promise is converted into a handled (logged-only) outcome. -/
def handleFetchOutcome : Except String Unit → Except String Unit
  | .ok _ => .ok ()
  | .error _ => .ok ()

/-! ## Storage with failure

The agent performs `localStorage.setItem` / `sessionStorage.setItem` with no
`try`/`catch` anywhere.  To examine what happens when storage throws (quota
exceeded, private browsing), the same `manageSession` code is embedded over an
`Except`-returning `setItem`; since the source has no handler, every monadic
bind simply propagates the error. -/

/-- A `setItem` call against storage that throws when `fails` is set. -/
def setItemE (fails : Bool) (st : Store) (upd : Store → Store) :
    Except String Store :=
  if fails then .error "QuotaExceededError" else .ok (upd st)

/-- `determineReferrer` over failing storage (no catch in the source). -/
def determineReferrerE (s : AgentState) (page : Page) (isNewSession : Bool)
    (setFails : Bool) : Except String AgentState :=
  let storedReferrer := s.store.ref
  if referrerExternal page then
    let cleanRef := normalizeUrl page.referrer
    if some cleanRef ≠ storedReferrer then
      (setItemE setFails s.store (fun st => { st with ref := some cleanRef })).map
        (fun st => { s with store := st })
    else .ok s
  else if isNewSession && jsFalsy storedReferrer then
    (setItemE setFails s.store (fun st => { st with ref := some "Direct" })).map
      (fun st => { s with store := st })
  else .ok s

/-- `manageSession` over failing storage: each `setItem` may throw and no
handler exists, so the exception propagates to the caller (`init`, the
listeners, and ultimately the host page). -/
def manageSessionE (s : AgentState) (now : Nat) (page : Page)
    (setFails : Bool) : Except String AgentState := do
  let lastActivity := s.store.lastActivity.getD 0
  let s1 ←
    if s.store.vid.isNone then
      (setItemE setFails s.store (fun st => { st with vid := some s.fresh })).map
        (fun st => { s with store := st, fresh := s.fresh + 1 })
    else .ok s
  let s2 ←
    if s1.store.sid.isNone || expired now lastActivity then do
      let st ← setItemE setFails s1.store (fun st => { st with sid := some s1.fresh })
      determineReferrerE { s1 with store := st, fresh := s1.fresh + 1 } page true setFails
    else determineReferrerE s1 page false setFails
  let st ← setItemE setFails s2.store (fun st => { st with lastActivity := some now })
  pure { s2 with store := st }

/-- `getIds` over failing storage: its unconditional
`localStorage.setItem('senzor_last_activity', ...)` is equally unguarded. -/
def getIdsE (s : AgentState) (now : Nat) (setFails : Bool) :
    Except String (AgentState × Ids) := do
  let st ← setItemE setFails s.store (fun st => { st with lastActivity := some now })
  pure (getIds { s with store := st } now)

/-! ## Concrete evaluation points -/

/-- A page reached with no document referrer. -/
def pageDirect : Page :=
  { referrer := "", referrerHost := none, host := "example.com",
    url := "https://example.com/a", path := "/a", title := "A",
    width := 800, timezone := "UTC" }

/-- A page reached from an external search engine. -/
def pageExternal : Page :=
  { referrer := "https://search.example/q=x",
    referrerHost := some "search.example", host := "example.com",
    url := "https://example.com/a", path := "/a", title := "A",
    width := 800, timezone := "UTC" }

/-- A page reached from another page of the same host. -/
def pageInternal : Page :=
  { referrer := "https://example.com/home",
    referrerHost := some "example.com", host := "example.com",
    url := "https://example.com/a", path := "/a", title := "A",
    width := 800, timezone := "UTC" }

/-- Browser storage of a first-ever visit: every key absent. -/
def storeEmpty : Store :=
  { vid := none, lastActivity := none, sid := none, ref := none }

/-- A freshly constructed, never-initialized agent over empty storage. -/
def stateFresh : AgentState := initialState storeEmpty 0 0

/-- An active agent mid-visit: identity established at time 0 with an
externally attributed referrer. -/
def stateSession : AgentState :=
  { store :=
      { vid := some 0, lastActivity := some 0, sid := some 1,
        ref := some "search.example/q=x" }
    fresh := 2, initialized := true, listeners := true, startTime := 0,
    webId := "w1", configEndpoint := some defaultEndpoint,
    endpoint := defaultEndpoint }

/-! ## Frame lemmas -/

theorem determineReferrer_store (s : AgentState) (page : Page) (b : Bool) :
    (determineReferrer s page b).1 =
      { s with store :=
          { s.store with ref := ((determineReferrer s page b).1).store.ref } } := by
  simp only [determineReferrer]
  (repeat' split) <;> rfl

theorem determineReferrer_sid (s : AgentState) (page : Page) (b : Bool) :
    ((determineReferrer s page b).1).store.sid = s.store.sid := by
  rw [determineReferrer_store]

theorem determineReferrer_vid (s : AgentState) (page : Page) (b : Bool) :
    ((determineReferrer s page b).1).store.vid = s.store.vid := by
  rw [determineReferrer_store]

theorem determineReferrer_la (s : AgentState) (page : Page) (b : Bool) :
    ((determineReferrer s page b).1).store.lastActivity = s.store.lastActivity := by
  rw [determineReferrer_store]

theorem determineReferrer_fresh (s : AgentState) (page : Page) (b : Bool) :
    ((determineReferrer s page b).1).fresh = s.fresh := by
  rw [determineReferrer_store]

theorem manageSession_initialized (s : AgentState) (now : Nat) (page : Page) :
    (manageSession s now page).initialized = s.initialized := by
  simp only [manageSession, determineReferrer]
  (repeat' split) <;> rfl

theorem manageSession_listeners (s : AgentState) (now : Nat) (page : Page) :
    (manageSession s now page).listeners = s.listeners := by
  simp only [manageSession, determineReferrer]
  (repeat' split) <;> rfl

theorem manageSession_startTime (s : AgentState) (now : Nat) (page : Page) :
    (manageSession s now page).startTime = s.startTime := by
  simp only [manageSession, determineReferrer]
  (repeat' split) <;> rfl

theorem manageSession_webId (s : AgentState) (now : Nat) (page : Page) :
    (manageSession s now page).webId = s.webId := by
  simp only [manageSession, determineReferrer]
  (repeat' split) <;> rfl

theorem manageSession_endpoint (s : AgentState) (now : Nat) (page : Page) :
    (manageSession s now page).endpoint = s.endpoint := by
  simp only [manageSession, determineReferrer]
  (repeat' split) <;> rfl

theorem manageSession_configEndpoint (s : AgentState) (now : Nat) (page : Page) :
    (manageSession s now page).configEndpoint = s.configEndpoint := by
  simp only [manageSession, determineReferrer]
  (repeat' split) <;> rfl

theorem manageSession_la (s : AgentState) (now : Nat) (page : Page) :
    (manageSession s now page).store.lastActivity = some now := rfl

theorem manageSession_vid_some (s : AgentState) (now : Nat) (page : Page)
    (v : Nat) (h : s.store.vid = some v) :
    (manageSession s now page).store.vid = some v := by
  simp only [manageSession]
  (repeat' split) <;> simp_all [determineReferrer_vid]

theorem manageSession_vid_none (s : AgentState) (now : Nat) (page : Page)
    (h : s.store.vid = none) :
    (manageSession s now page).store.vid = some s.fresh := by
  simp only [manageSession]
  (repeat' split) <;> simp_all [determineReferrer_vid]

theorem manageSession_fresh_ge (s : AgentState) (now : Nat) (page : Page) :
    s.fresh ≤ (manageSession s now page).fresh := by
  simp only [manageSession]
  (repeat' split) <;> simp_all [determineReferrer_fresh]
  all_goals omega

/-- Keep case of the session policy: a live, unexpired session is not
rotated. -/
theorem manageSession_sid_keep (s : AgentState) (now : Nat) (page : Page)
    (sid : Nat) (h1 : s.store.sid = some sid)
    (h2 : expired now (s.store.lastActivity.getD 0) = false) :
    (manageSession s now page).store.sid = some sid := by
  simp only [manageSession]
  (repeat' split) <;> simp_all [determineReferrer_sid]

/-- Rotate case: absent or expired session gets a freshly generated ID at or
above the current counter. -/
theorem manageSession_sid_rotate (s : AgentState) (now : Nat) (page : Page)
    (h : s.store.sid = none ∨ expired now (s.store.lastActivity.getD 0) = true) :
    ∃ m, (manageSession s now page).store.sid = some m ∧ s.fresh ≤ m := by
  simp only [manageSession]
  rcases h with h | h <;>
    (repeat' split) <;> simp_all [determineReferrer_sid]

theorem getIds_fst (s : AgentState) (now : Nat) :
    (getIds s now).1 =
      { s with store := { s.store with lastActivity := some now } } := rfl

theorem trackPageView_initialized (s : AgentState) (now : Nat) (page : Page) :
    ((trackPageView s now page).1).initialized = s.initialized := by
  simp [trackPageView, getIds_fst, manageSession_initialized]

/-- A first `init` call always leaves the idempotency flag set, whichever
path it takes (guard hit, `webId` validation failure, or full activation). -/
theorem init_initialized (s : AgentState) (cfg : Config) (now : Nat)
    (page : Page) : ((init s cfg now page).1).initialized = true := by
  simp only [init]
  split
  · assumption
  · split
    · rfl
    · simp [trackPageView_initialized, manageSession_initialized]

/-! ## Claims -/

/-- C1: on a session-establishing call, if a session ID exists and the time
elapsed since the stored `lastActivity` is at most 30 minutes the session ID
is kept; if the elapsed time exceeds 30 minutes or no ephemeral session ID
exists, a fresh session ID (distinct from any previously stored one) is
generated and persisted; `lastActivity` is persisted as `now`, so for two
consecutive calls the elapsed time is exactly the gap between them. -/
theorem manageSession_session_policy (s : AgentState) (now : Nat) (page : Page)
    (hwf : ∀ n, s.store.sid = some n → n < s.fresh) :
    (∀ sid, s.store.sid = some sid →
        (now : Int) - (s.store.lastActivity.getD 0 : Int) ≤ sessionTimeout →
        (manageSession s now page).store.sid = some sid) ∧
    ((s.store.sid = none ∨
        (now : Int) - (s.store.lastActivity.getD 0 : Int) > sessionTimeout) →
      ∃ newSid, (manageSession s now page).store.sid = some newSid ∧
        ∀ old, s.store.sid = some old → newSid ≠ old) ∧
    (manageSession s now page).store.lastActivity = some now := by
  refine ⟨?_, ?_, manageSession_la s now page⟩
  · intro sid h1 h2
    refine manageSession_sid_keep s now page sid h1 ?_
    simp only [expired, decide_eq_false_iff_not, not_lt]
    exact h2
  · intro h
    have hrot : s.store.sid = none ∨
        expired now (s.store.lastActivity.getD 0) = true := by
      rcases h with h | h
      · exact Or.inl h
      · refine Or.inr ?_
        simp only [expired, decide_eq_true_eq]
        exact h
    obtain ⟨m, hm, hge⟩ := manageSession_sid_rotate s now page hrot
    refine ⟨m, hm, fun old hold => ?_⟩
    have := hwf old hold
    omega

/-- Witness for C1 at a concrete live session and a concrete expired one. -/
theorem manageSession_session_policy_witness :
    (manageSession stateSession 1000 pageInternal).store.sid = some 1 ∧
    ∃ newSid, (manageSession stateSession 2000000 pageInternal).store.sid
        = some newSid ∧ newSid ≠ 1 := by
  have hwf : ∀ n, stateSession.store.sid = some n → n < stateSession.fresh := by
    intro n hn
    simp [stateSession] at hn ⊢
    omega
  constructor
  · exact (manageSession_session_policy stateSession 1000 pageInternal hwf).1
      1 rfl (by decide)
  · obtain ⟨m, hm, hne⟩ :=
      (manageSession_session_policy stateSession 2000000 pageInternal hwf).2.1
        (Or.inr (by decide))
    exact ⟨m, hm, hne 1 rfl⟩

/-- C3: calling `init` a second time, after any first call and with any
configuration, is a no-op: the state (identity storage, `startTime`,
endpoint, listener registration) is unchanged and no event is sent. -/
theorem init_second_call_noop (s0 : AgentState) (cfg1 cfg2 : Config)
    (n1 n2 : Nat) (p1 p2 : Page) :
    init (init s0 cfg1 n1 p1).1 cfg2 n2 p2 = ((init s0 cfg1 n1 p1).1, []) := by
  have h := init_initialized s0 cfg1 n1 p1
  generalize (init s0 cfg1 n1 p1).1 = t at h ⊢
  simp [init, h]

/-- C4: `trackPing` computes `duration = floor((now - startTime) / 1000)`;
with `duration < 1` it sends nothing, otherwise exactly one ping payload
carrying that duration, which is at least 1. -/
theorem trackPing_duration_policy (s : AgentState) (now : Nat) (page : Page) :
    (Int.fdiv ((now : Int) - (s.startTime : Int)) 1000 < 1 →
      (trackPing s now page).2 = []) ∧
    (1 ≤ Int.fdiv ((now : Int) - (s.startTime : Int)) 1000 →
      ∃ p, (trackPing s now page).2 = [p] ∧ p.type = .ping ∧
        p.duration = some (Int.fdiv ((now : Int) - (s.startTime : Int)) 1000) ∧
        ∀ d, p.duration = some d → 1 ≤ d) := by
  constructor
  · intro h
    simp only [trackPing]
    rw [if_pos h]
  · intro h
    simp only [trackPing]
    rw [if_neg (not_lt.mpr h)]
    refine ⟨_, rfl, rfl, rfl, ?_⟩
    intro d hd
    simp only [Option.some.injEq] at hd
    rw [← hd]
    exact h

/-- Witness for C4: 2000 seconds of dwell produce one ping of duration 2000;
half a second of dwell produces nothing. -/
theorem trackPing_duration_policy_witness :
    (trackPing stateSession 2000000 pageDirect).2.length = 1 ∧
    (trackPing stateSession 500 pageDirect).2 = [] := by
  constructor
  · obtain ⟨p, hp, -, -, -⟩ :=
      (trackPing_duration_policy stateSession 2000000 pageDirect).2 (by decide)
    rw [hp]
    rfl
  · exact (trackPing_duration_policy stateSession 500 pageDirect).1 (by decide)

/-- C9: a first `init` with an empty `webId` sets the `initialized` flag
before validation, aborts without listeners or events, and every later
`init` call, with any configuration, is a no-op: the agent never becomes
active for the remainder of the page load. -/
theorem init_empty_webId_bricks (st : Store) (f n0 : Nat) (cfg : Config)
    (now : Nat) (page : Page) (hweb : cfg.webId = "") :
    (init (initialState st f n0) cfg now page).2 = [] ∧
    ((init (initialState st f n0) cfg now page).1).initialized = true ∧
    ((init (initialState st f n0) cfg now page).1).listeners = false ∧
    ∀ cfg2 now2 page2,
      init (init (initialState st f n0) cfg now page).1 cfg2 now2 page2 =
        ((init (initialState st f n0) cfg now page).1, []) := by
  refine ⟨?_, ?_, ?_, ?_⟩
  · simp [init, initialState, hweb]
  · simp [init, initialState, hweb]
  · simp [init, initialState, hweb]
  · intro cfg2 now2 page2
    have h := init_initialized (initialState st f n0) cfg now page
    generalize (init (initialState st f n0) cfg now page).1 = t at h ⊢
    simp [init, h]

/-- Witness for C9: after a first `init` with empty `webId`, a second `init`
with a valid `webId` changes nothing and sends nothing. -/
theorem init_empty_webId_bricks_witness :
    init (init (initialState storeEmpty 0 0)
        { webId := "", endpoint := none } 100 pageDirect).1
      { webId := "w1", endpoint := none } 200 pageDirect =
    ((init (initialState storeEmpty 0 0)
        { webId := "", endpoint := none } 100 pageDirect).1, []) :=
  (init_empty_webId_bricks storeEmpty 0 0
    { webId := "", endpoint := none } 100 pageDirect rfl).2.2.2
    { webId := "w1", endpoint := none } 200 pageDirect

/-- External referrer: the stored attribution becomes the scheme-stripped
referrer URL (whether or not a write was needed). -/
theorem determineReferrer_ref_ext (s : AgentState) (page : Page) (b : Bool)
    (h : referrerExternal page = true) :
    ((determineReferrer s page b).1).store.ref =
      some (normalizeUrl page.referrer) := by
  simp only [determineReferrer, h, if_true]
  split
  · rfl
  · next hne =>
    simp only [ne_eq, not_not] at hne
    exact hne.symm

/-- External referrer: a `senzor_ref` write happens exactly when the
normalized value differs from what is stored. -/
theorem determineReferrer_wrote_ext (s : AgentState) (page : Page) (b : Bool)
    (h : referrerExternal page = true) :
    ((determineReferrer s page b).2 = true ↔
      some (normalizeUrl page.referrer) ≠ s.store.ref) := by
  simp only [determineReferrer, h, if_true]
  split <;> simp_all

/-- Internal or absent referrer: `"Direct"` is stored only on a new session
whose stored referrer is absent or empty; otherwise nothing changes. -/
theorem determineReferrer_ref_int (s : AgentState) (page : Page) (b : Bool)
    (h : referrerExternal page = false) :
    ((determineReferrer s page b).1).store.ref =
      (if (b && jsFalsy s.store.ref) = true then some "Direct"
       else s.store.ref) := by
  simp only [determineReferrer, h, Bool.false_eq_true, if_false]
  split <;> rfl

theorem manageSession_ref_ext (s : AgentState) (now : Nat) (page : Page)
    (h : referrerExternal page = true) :
    (manageSession s now page).store.ref = some (normalizeUrl page.referrer) := by
  simp only [manageSession]
  (repeat' split) <;> simp_all [determineReferrer_ref_ext]

theorem manageSession_ref_int_new (s : AgentState) (now : Nat) (page : Page)
    (h : referrerExternal page = false)
    (hn : s.store.sid = none ∨ expired now (s.store.lastActivity.getD 0) = true) :
    (manageSession s now page).store.ref =
      (if jsFalsy s.store.ref = true then some "Direct" else s.store.ref) := by
  simp only [manageSession]
  rcases hn with hn | hn <;>
    (repeat' split) <;> simp_all [determineReferrer_ref_int]

theorem manageSession_ref_int_old (s : AgentState) (now : Nat) (page : Page)
    (sid : Nat) (h : referrerExternal page = false)
    (hsid : s.store.sid = some sid)
    (hexp : expired now (s.store.lastActivity.getD 0) = false) :
    (manageSession s now page).store.ref = s.store.ref := by
  simp only [manageSession]
  (repeat' split) <;> simp_all [determineReferrer_ref_int]

/-- C2 counterexample: at `stateSession`, a call after a gap above the
30-minute timeout with no document referrer starts a new session (the
session ID rotates), yet the stored referrer stays the previously
attributed external URL instead of becoming `"Direct"`. -/
theorem referrer_direct_counterexample :
    (manageSession stateSession 2000000 pageDirect).store.sid ≠
      stateSession.store.sid ∧
    pageDirect.referrer = "" ∧
    ((2000000 : Int) - (stateSession.store.lastActivity.getD 0 : Int) >
      sessionTimeout) ∧
    (manageSession stateSession 2000000 pageDirect).store.ref =
      some "search.example/q=x" ∧
    (manageSession stateSession 2000000 pageDirect).store.ref ≠
      some "Direct" := by
  decide

/-- C2 (amended): external (or unparseable) referrers always attribute the
scheme-stripped URL, written only when it differs from the stored value; an
absent or same-host referrer stores `"Direct"` on a new session only when no
referrer is currently stored (absent or empty), leaves an already-stored
referrer unchanged even on a new session, and changes nothing mid-session. -/
theorem manageSession_referrer_attribution (s : AgentState) (now : Nat)
    (page : Page) :
    (referrerExternal page = true →
      (manageSession s now page).store.ref =
        some (normalizeUrl page.referrer) ∧
      ∀ b, ((determineReferrer s page b).2 = true ↔
        some (normalizeUrl page.referrer) ≠ s.store.ref)) ∧
    (referrerExternal page = false →
      ((s.store.sid = none ∨
          (now : Int) - (s.store.lastActivity.getD 0 : Int) > sessionTimeout) →
        (jsFalsy s.store.ref = true →
          (manageSession s now page).store.ref = some "Direct") ∧
        (jsFalsy s.store.ref = false →
          (manageSession s now page).store.ref = s.store.ref)) ∧
      (∀ sid, s.store.sid = some sid →
        (now : Int) - (s.store.lastActivity.getD 0 : Int) ≤ sessionTimeout →
        (manageSession s now page).store.ref = s.store.ref)) := by
  constructor
  · intro h
    exact ⟨manageSession_ref_ext s now page h,
      fun b => determineReferrer_wrote_ext s page b h⟩
  · intro h
    constructor
    · intro hn
      have hrot : s.store.sid = none ∨
          expired now (s.store.lastActivity.getD 0) = true := by
        rcases hn with hn | hn
        · exact Or.inl hn
        · refine Or.inr ?_
          simp only [expired, decide_eq_true_eq]
          exact hn
      have hr := manageSession_ref_int_new s now page h hrot
      constructor
      · intro hf
        rw [hr, if_pos hf]
      · intro hf
        rw [hr, if_neg (by simp [hf])]
    · intro sid hsid hle
      refine manageSession_ref_int_old s now page sid h hsid ?_
      simp only [expired, decide_eq_false_iff_not, not_lt]
      exact hle

/-- Witness for C2's amended theorem: an external visit attributes the
stripped URL; a fresh direct visit attributes `"Direct"`; a mid-session
internal navigation leaves the stored attribution alone. -/
theorem manageSession_referrer_attribution_witness :
    (manageSession stateFresh 50 pageExternal).store.ref =
      some "search.example/q=x" ∧
    (manageSession stateFresh 50 pageDirect).store.ref = some "Direct" ∧
    (manageSession stateSession 1000 pageInternal).store.ref =
      some "search.example/q=x" := by
  refine ⟨?_, ?_, ?_⟩
  · have h := (manageSession_referrer_attribution stateFresh 50 pageExternal).1
      (by decide)
    have hn : normalizeUrl pageExternal.referrer = "search.example/q=x" := by
      decide
    rw [← hn]
    exact h.1
  · have h := ((manageSession_referrer_attribution stateFresh 50 pageDirect).2
      (by decide)).1 (Or.inl rfl)
    exact h.1 (by decide)
  · exact ((manageSession_referrer_attribution stateSession 1000
      pageInternal).2 (by decide)).2 1 rfl (by decide)

/-- `trackPing` sends nothing or a single ping. -/
theorem trackPing_events (s : AgentState) (now : Nat) (page : Page) :
    (trackPing s now page).2 = [] ∨
    ∃ q, (trackPing s now page).2 = [q] ∧ q.type = .ping := by
  simp only [trackPing]
  split
  · exact Or.inl rfl
  · exact Or.inr ⟨_, rfl, rfl⟩

/-- `trackPageView` sends exactly one pageview. -/
theorem trackPageView_events (s : AgentState) (now : Nat) (page : Page) :
    ∃ q, (trackPageView s now page).2 = [q] ∧ q.type = .pageview :=
  ⟨_, rfl, rfl⟩

/-- C7: `send` makes at most one beacon attempt and at most one fallback
attempt, with no retries or queuing; the fetch fallback runs exactly when
`sendBeacon` is absent or returns immediate failure; the fallback request is
a keepalive JSON POST, and its rejection is swallowed. -/
theorem send_transport_policy (env : TransportEnv) :
    ((send env).count Attempt.beacon ≤ 1 ∧
      (send env).count Attempt.fetchPost ≤ 1 ∧ (send env).length ≤ 2) ∧
    (Attempt.fetchPost ∈ send env ↔
      (env.hasSendBeacon = false ∨ env.beaconOk = false)) ∧
    (Attempt.beacon ∈ send env ↔ env.hasSendBeacon = true) ∧
    (fallbackRequest.method = "POST" ∧
      fallbackRequest.contentType = "application/json" ∧
      fallbackRequest.keepalive = true) ∧
    (∀ r, handleFetchOutcome r = Except.ok ()) := by
  obtain ⟨hb, bo⟩ := env
  refine ⟨?_, ?_, ?_, ⟨rfl, rfl, rfl⟩, fun r => ?_⟩
  · cases hb <;> cases bo <;> decide
  · cases hb <;> cases bo <;> decide
  · cases hb <;> cases bo <;> decide
  · cases r <;> rfl

/-- C8: in both navigation handlers (patched `pushState` and `popstate`),
every emitted ping precedes the pageview of the new page; the pageview is
always the last event of the handler. -/
theorem navigation_ping_before_pageview (s : AgentState) (now : Nat)
    (pOld pNew p : Page) :
    (∃ pre pv, (onPushState s now pOld pNew).2 = pre ++ [pv] ∧
      pv.type = .pageview ∧ ∀ e ∈ pre, e.type = .ping) ∧
    (∃ pre pv, (onPopstate s now p).2 = pre ++ [pv] ∧
      pv.type = .pageview ∧ ∀ e ∈ pre, e.type = .ping) := by
  constructor
  · obtain ⟨pv, hpv, hty⟩ :=
      trackPageView_events (trackPing s now pOld).1 now pNew
    rcases trackPing_events s now pOld with h | ⟨q, hq, hqt⟩
    · exact ⟨[], pv, by simp [onPushState, h, hpv], hty, by simp⟩
    · exact ⟨[q], pv, by simp [onPushState, hq, hpv], hty, by simp [hqt]⟩
  · obtain ⟨pv, hpv, hty⟩ :=
      trackPageView_events (trackPing s now p).1 now p
    rcases trackPing_events s now p with h | ⟨q, hq, hqt⟩
    · exact ⟨[], pv, by simp [onPopstate, h, hpv], hty, by simp⟩
    · exact ⟨[q], pv, by simp [onPopstate, hq, hpv], hty, by simp [hqt]⟩

theorem trackPing_vid (s : AgentState) (now : Nat) (page : Page) (v : Nat)
    (h : s.store.vid = some v) :
    ((trackPing s now page).1).store.vid = some v ∧
    ∀ p ∈ (trackPing s now page).2, p.visitorId = Ident.uuid v := by
  simp only [trackPing]
  split <;> simp [getIds, h]

theorem trackPageView_vid (s : AgentState) (now : Nat) (page : Page) (v : Nat)
    (h : s.store.vid = some v) :
    ((trackPageView s now page).1).store.vid = some v ∧
    ∀ p ∈ (trackPageView s now page).2, p.visitorId = Ident.uuid v := by
  have hm := manageSession_vid_some s now page v h
  simp [trackPageView, getIds, hm]

theorem step_vid (s : AgentState) (op : Op) (v : Nat)
    (h : s.store.vid = some v) :
    ((step s op).1).store.vid = some v ∧
    ∀ p ∈ (step s op).2, p.visitorId = Ident.uuid v := by
  cases op with
  | pushNav now a b =>
    obtain ⟨h1, h2⟩ := trackPing_vid s now a v h
    obtain ⟨h3, h4⟩ := trackPageView_vid (trackPing s now a).1 now b v h1
    refine ⟨by simpa [step, onPushState] using h3, ?_⟩
    intro p hp
    simp only [step, onPushState, List.mem_append] at hp
    rcases hp with hp | hp
    · exact h2 p hp
    · exact h4 p hp
  | popNav now a =>
    obtain ⟨h1, h2⟩ := trackPing_vid s now a v h
    obtain ⟨h3, h4⟩ := trackPageView_vid (trackPing s now a).1 now a v h1
    refine ⟨by simpa [step, onPopstate] using h3, ?_⟩
    intro p hp
    simp only [step, onPopstate, List.mem_append] at hp
    rcases hp with hp | hp
    · exact h2 p hp
    · exact h4 p hp
  | hide now a =>
    obtain ⟨h1, h2⟩ := trackPing_vid s now a v h
    exact ⟨h1, h2⟩
  | tabShown now a =>
    refine ⟨?_, by simp [step, onVisible]⟩
    simpa [step, onVisible] using
      manageSession_vid_some { s with startTime := now } now a v h
  | unload now a =>
    obtain ⟨h1, h2⟩ := trackPing_vid s now a v h
    exact ⟨h1, h2⟩

theorem run_vid (s : AgentState) (ops : List Op) (v : Nat)
    (h : s.store.vid = some v) :
    ((run s ops).1).store.vid = some v ∧
    ∀ p ∈ (run s ops).2, p.visitorId = Ident.uuid v := by
  induction ops generalizing s with
  | nil => exact ⟨h, by simp [run]⟩
  | cons op ops ih =>
    obtain ⟨h1, h2⟩ := step_vid s op v h
    obtain ⟨h3, h4⟩ := ih (step s op).1 h1
    refine ⟨by simpa [run] using h3, ?_⟩
    intro p hp
    simp only [run, List.mem_append] at hp
    rcases hp with hp | hp
    · exact h2 p hp
    · exact h4 p hp

/-- C5: the visitor ID is written exactly once per durable-storage lifetime:
a session-establishing call generates one only when none exists, an existing
one is never overwritten by any session-establishing call or any sequence of
listener-driven operations, and every identity read (and every payload
built) reports that same value. -/
theorem visitorId_write_once (s : AgentState) (now : Nat) (page : Page)
    (v : Nat) (ops : List Op) (h : s.store.vid = some v) :
    (manageSession s now page).store.vid = some v ∧
    (∀ s' : AgentState, s'.store.vid = none →
      (manageSession s' now page).store.vid = some s'.fresh) ∧
    (getIds s now).2.visitorId = Ident.uuid v ∧
    ((run s ops).1).store.vid = some v ∧
    (∀ p ∈ (run s ops).2, p.visitorId = Ident.uuid v) := by
  obtain ⟨h1, h2⟩ := run_vid s ops v h
  refine ⟨manageSession_vid_some s now page v h,
    fun s' h' => manageSession_vid_none s' now page h', ?_, h1, h2⟩
  simp [getIds, h]

/-- Witness for C5: across a navigation, a hide and an unload after the
session timeout, the visitor ID persists and every sent payload carries it. -/
theorem visitorId_write_once_witness :
    ((run stateSession
        [Op.pushNav 2000000 pageDirect pageDirect,
         Op.hide 4000000 pageDirect,
         Op.unload 4000001 pageDirect]).1).store.vid = some 0 :=
  (visitorId_write_once stateSession 1000 pageDirect 0
    [Op.pushNav 2000000 pageDirect pageDirect,
     Op.hide 4000000 pageDirect,
     Op.unload 4000001 pageDirect] rfl).2.2.2.1

theorem trackPing_fst_sent (s : AgentState) (now : Nat) (page : Page)
    (h : 1 ≤ Int.fdiv ((now : Int) - (s.startTime : Int)) 1000) :
    (trackPing s now page).1 =
      { s with store := { s.store with lastActivity := some now } } := by
  simp only [trackPing]
  rw [if_neg (not_lt.mpr h)]
  rfl

theorem trackPageView_sid_of (s : AgentState) (now : Nat) (page : Page)
    (n : Nat) (h : (manageSession s now page).store.sid = some n) :
    ((trackPageView s now page).1).store.sid = some n ∧
    ∀ e ∈ (trackPageView s now page).2, e.sessionId = Ident.uuid n := by
  simp [trackPageView, getIds, h]

/-- C10: every `getIds` call writes `lastActivity := now`; hence in both
navigation handlers, after a gap above the session timeout (with at least
one second of page dwell so the ping is not suppressed), the ping's identity
read refreshes `lastActivity` before the pageview's session check, and the
pageview after the gap still carries the old, unrotated session ID. -/
theorem getIds_refreshes_stale_session (s : AgentState) (now : Nat)
    (pOld pNew p : Page) (n : Nat)
    (hsid : s.store.sid = some n)
    (hgap : (now : Int) - (s.store.lastActivity.getD 0 : Int) > sessionTimeout)
    (hdwell : (1000 : Int) ≤ (now : Int) - (s.startTime : Int)) :
    (∀ (s' : AgentState) (now' : Nat),
      ((getIds s' now').1).store.lastActivity = some now') ∧
    ((onPushState s now pOld pNew).1).store.sid = some n ∧
    (∀ e ∈ (onPushState s now pOld pNew).2,
      e.type = EvType.pageview → e.sessionId = Ident.uuid n) ∧
    ((onPopstate s now p).1).store.sid = some n ∧
    (∀ e ∈ (onPopstate s now p).2,
      e.type = EvType.pageview → e.sessionId = Ident.uuid n) := by
  have hd1 : 1 ≤ Int.fdiv ((now : Int) - (s.startTime : Int)) 1000 := by
    rw [Int.fdiv_eq_ediv _ (by norm_num)]
    rw [Int.le_ediv_iff_mul_le (by norm_num)]
    omega
  have hexp : expired now
      (((({ s with store := { s.store with lastActivity := some now } } :
        AgentState)).store.lastActivity).getD 0) = false := by
    simp only [Option.getD_some, expired, sessionTimeout,
      decide_eq_false_iff_not, not_lt]
    omega
  have hkeep := manageSession_sid_keep
    { s with store := { s.store with lastActivity := some now } } now pNew n
    hsid hexp
  have hkeepP := manageSession_sid_keep
    { s with store := { s.store with lastActivity := some now } } now p n
    hsid hexp
  obtain ⟨hst, hev⟩ := trackPageView_sid_of
    { s with store := { s.store with lastActivity := some now } } now pNew n
    hkeep
  obtain ⟨hstP, hevP⟩ := trackPageView_sid_of
    { s with store := { s.store with lastActivity := some now } } now p n
    hkeepP
  have hping := trackPing_fst_sent s now pOld hd1
  have hpingP := trackPing_fst_sent s now p hd1
  refine ⟨fun s' now' => rfl, ?_, ?_, ?_, ?_⟩
  · simp only [onPushState]
    rw [hping]
    exact hst
  · intro e he _
    simp only [onPushState, List.mem_append] at he
    rcases he with he | he
    · rcases trackPing_events s now pOld with hnil | ⟨q, hq, hqt⟩
      · rw [hnil] at he
        simp at he
      · rw [hq] at he
        simp only [List.mem_singleton] at he
        subst he
        simp_all
    · rw [hping] at he
      exact hev e he
  · simp only [onPopstate]
    rw [hpingP]
    exact hstP
  · intro e he _
    simp only [onPopstate, List.mem_append] at he
    rcases he with he | he
    · rcases trackPing_events s now p with hnil | ⟨q, hq, hqt⟩
      · rw [hnil] at he
        simp at he
      · rw [hq] at he
        simp only [List.mem_singleton] at he
        subst he
        simp_all
    · rw [hpingP] at he
      exact hevP e he

/-- Witness for C10: at `stateSession`, a navigation 2000 seconds after the
last activity (well past the 30-minute timeout) keeps session ID 1. -/
theorem getIds_refreshes_stale_session_witness :
    ((onPushState stateSession 2000000 pageDirect pageDirect).1).store.sid =
      some 1 :=
  (getIds_refreshes_stale_session stateSession 2000000 pageDirect pageDirect
    pageDirect 1 rfl (by decide) (by decide)).2.1

/-- With storage that works, the failure-aware embedding agrees with the
plain one (referrer attribution). -/
theorem determineReferrerE_ok (s : AgentState) (page : Page) (b : Bool) :
    determineReferrerE s page b false =
      Except.ok (determineReferrer s page b).1 := by
  simp only [determineReferrerE, determineReferrer, setItemE,
    Bool.false_eq_true, if_false, Except.map]
  (repeat' split) <;> rfl

/-- With storage that works, the failure-aware embedding agrees with the
plain one (session management). -/
theorem manageSessionE_ok (s : AgentState) (now : Nat) (page : Page) :
    manageSessionE s now page false =
      Except.ok (manageSession s now page) := by
  simp only [manageSessionE, manageSession, setItemE, Bool.false_eq_true,
    if_false, determineReferrerE_ok, bind, Except.bind, Except.map, pure,
    Except.pure]
  (repeat' split) <;> simp_all [determineReferrerE_ok]

/-- C6: the code has no exception handler around storage: when `setItem`
throws (quota exceeded, private browsing), `manageSession` — and with it
`init` and every listener that reaches it — propagates the exception to the
caller instead of degrading to defaults, from the very first visit
(visitor-ID write), from an ongoing session (`lastActivity` write), and from
the identity read in `getIds`. -/
theorem manageSession_storage_failure_propagates :
    manageSessionE stateFresh 100 pageDirect true =
      Except.error "QuotaExceededError" ∧
    manageSessionE stateSession 2000000 pageInternal true =
      Except.error "QuotaExceededError" ∧
    getIdsE stateSession 100 true = Except.error "QuotaExceededError" ∧
    (∀ (s : AgentState) (now : Nat) (page : Page),
      manageSessionE s now page false = Except.ok (manageSession s now page)) :=
  ⟨rfl, rfl, rfl, manageSessionE_ok⟩

end Senzor
